import Mathlib

/-!
Shallow embedding of the translation request handlers of this repository:
`src/index.js` (multipart variant, Azure env names, axios transport),
`src/unnamed/part_000` (JSON-body variant, target language from the query
string, no upstream status check) and `src/unnamed/part_001` (JSON-body
variant, target language from the body, explicit upstream status check).

Each handler is split into a send phase (validation and construction of the
outbound completion request; returning `Sum.inl` models the early 400 return
with no outbound call) and a receive phase (mapping of the upstream outcome
to the HTTP response, including the catch-all that maps any thrown or
rejected error to 500).  The full handler is the composition of the two,
taking the upstream outcome as an explicit input.

JSON values are modelled at the granularity the handlers inspect: the
upstream body is either unparseable (JSON.parse throws, with the error
message it throws carried alongside the raw text) or parsed with an optional
`choices` array whose elements carry a `text` string.
-/

/-- JS truthiness of an optional string field: the field is present and not
the empty string.  Used for `req.body && req.body.text` and the like. -/
def jsTruthy : Option String → Bool
  | some s => !(s == "")
  | none => false

/-- Model of the JS expression `x || d` for an optional string `x`: the
default is taken when `x` is absent or the empty string (both falsy). -/
def orDefault (o : Option String) (d : String) : String :=
  match o with
  | some s => if s == "" then d else s
  | none => d

/-- Interpolation of a possibly-undefined `process.env` value into a JS
template literal: `undefined` prints as the string "undefined". -/
def envString (o : Option String) : String :=
  match o with
  | some s => s
  | none => "undefined"

/-- Value of one character in the base64 alphabet accepted by Node
(standard plus URL-safe), or `none` for characters outside it. -/
def base64Val (c : Char) : Option Nat :=
  if 'A' ≤ c && c ≤ 'Z' then some (c.toNat - 65)
  else if 'a' ≤ c && c ≤ 'z' then some (c.toNat - 97 + 26)
  else if '0' ≤ c && c ≤ '9' then some (c.toNat - 48 + 52)
  else if c == '+' || c == '-' then some 62
  else if c == '/' || c == '_' then some 63
  else none

/-- Sextet stream extracted by Node base64 decoding: characters outside the
alphabet are skipped, and decoding stops at the first padding character. -/
def base64Sextets : List Char → List Nat
  | [] => []
  | c :: cs =>
    if c == '=' then []
    else
      match base64Val c with
      | some v => v :: base64Sextets cs
      | none => base64Sextets cs

/-- Regrouping of base64 sextets into bytes; a trailing group of two or
three sextets contributes one or two bytes, a lone trailing sextet none. -/
def sextetsToBytes : List Nat → List Nat
  | a :: b :: c :: d :: rest =>
      (a * 4 + b / 16) :: ((b % 16) * 16 + c / 4) :: ((c % 4) * 64 + d) :: sextetsToBytes rest
  | [a, b] => [a * 4 + b / 16]
  | [a, b, c] => [a * 4 + b / 16, (b % 16) * 16 + c / 4]
  | _ => []

/-- The Unicode replacement character emitted for malformed UTF-8. -/
def uRepl : Char := Char.ofNat 0xFFFD

/-- Whether a byte is a UTF-8 continuation byte. -/
def isUtf8Cont (b : Nat) : Bool := 0x80 ≤ b && b < 0xC0

/-- Recursion core of lossy UTF-8 decoding; the fuel argument only bounds
the recursion depth and always dominates the length of the byte list. -/
def utf8DecodeAux : Nat → List Nat → List Char
  | 0, _ => []
  | _ + 1, [] => []
  | fuel + 1, b :: bs =>
    if b < 0x80 then Char.ofNat b :: utf8DecodeAux fuel bs
    else if b < 0xC2 then uRepl :: utf8DecodeAux fuel bs
    else if b < 0xE0 then
      match bs with
      | b2 :: bs2 =>
        if isUtf8Cont b2 then
          Char.ofNat ((b - 0xC0) * 64 + (b2 - 0x80)) :: utf8DecodeAux fuel bs2
        else uRepl :: utf8DecodeAux fuel bs
      | [] => [uRepl]
    else if b < 0xF0 then
      match bs with
      | b2 :: b3 :: bs3 =>
        if isUtf8Cont b2 && isUtf8Cont b3 then
          (if (b - 0xE0) * 4096 + (b2 - 0x80) * 64 + (b3 - 0x80) < 0x800
              || (0xD800 ≤ (b - 0xE0) * 4096 + (b2 - 0x80) * 64 + (b3 - 0x80)
                  && (b - 0xE0) * 4096 + (b2 - 0x80) * 64 + (b3 - 0x80) < 0xE000)
           then uRepl
           else Char.ofNat ((b - 0xE0) * 4096 + (b2 - 0x80) * 64 + (b3 - 0x80)))
            :: utf8DecodeAux fuel bs3
        else uRepl :: utf8DecodeAux fuel bs
      | _ => uRepl :: utf8DecodeAux fuel bs
    else if b < 0xF5 then
      match bs with
      | b2 :: b3 :: b4 :: bs4 =>
        if isUtf8Cont b2 && isUtf8Cont b3 && isUtf8Cont b4 then
          (if (b - 0xF0) * 262144 + (b2 - 0x80) * 4096 + (b3 - 0x80) * 64 + (b4 - 0x80) < 0x10000
              || 0x110000 ≤ (b - 0xF0) * 262144 + (b2 - 0x80) * 4096 + (b3 - 0x80) * 64 + (b4 - 0x80)
           then uRepl
           else Char.ofNat ((b - 0xF0) * 262144 + (b2 - 0x80) * 4096 + (b3 - 0x80) * 64 + (b4 - 0x80)))
            :: utf8DecodeAux fuel bs4
        else uRepl :: utf8DecodeAux fuel bs
      | _ => uRepl :: utf8DecodeAux fuel bs
    else uRepl :: utf8DecodeAux fuel bs

/-- Lossy UTF-8 decoding of a byte list, as performed by Node
`buffer.toString("utf8")`: malformed bytes and sequences (stray
continuations, overlong forms, surrogates, out-of-range values, truncated
sequences) become the replacement character instead of raising. -/
def utf8DecodeBytes (l : List Nat) : List Char :=
  utf8DecodeAux l.length l

/-- Model of the JS expression `Buffer.from(s, "base64").toString("utf8")`
used by both JSON-body handlers.  Node base64 decoding is total and
forgiving: it never throws, it drops characters outside the base64
alphabet, and it stops at the first padding character. -/
def bufferBase64ToUtf8 (s : String) : String :=
  String.mk (utf8DecodeBytes (sextetsToBytes (base64Sextets s.data)))

/-- Whether a character belongs to the strict RFC 4648 base64 alphabet. -/
def isBase64AlphabetChar (c : Char) : Bool :=
  ('A' ≤ c && c ≤ 'Z') || ('a' ≤ c && c ≤ 'z') || ('0' ≤ c && c ≤ '9')
    || c == '+' || c == '/'

/-- Modelled from the spec: the notion of a "valid base64" string used by
the claims (the source never checks validity).  Strict RFC 4648 shape:
length a multiple of four, alphabet characters, and at most two trailing
padding characters. -/
def validBase64 (s : String) : Bool :=
  let cs := s.data
  let pad := (cs.reverse.takeWhile (fun c => c == '=')).length
  decide (cs.length % 4 = 0) && decide (pad ≤ 2)
    && (cs.take (cs.length - pad)).all isBase64AlphabetChar

/-- JSON request body of the two JSON-body variants: the handlers only read
the `text`, `file` and `lang` fields (part_000 ignores `lang`; part_001
reads it).  Absent fields are `none`. -/
structure JsonBody where
  text : Option String
  file : Option String
  lang : Option String
deriving DecidableEq

/-- Incoming request for the JSON-body variants: an optional parsed body
and the `lang` query parameter (part_001 ignores the query). -/
structure Request where
  body : Option JsonBody
  queryLang : Option String
deriving DecidableEq

/-- Parsed multipart form data as produced by `multiparty` in
`src/index.js`: the content of the uploaded `file` (already read from disk
as UTF-8) when one was uploaded, and the `text` field when present
(`some ""` models a present-but-empty field, whose containing array is
still truthy). -/
structure FormData where
  fileContent : Option String
  text : Option String
deriving DecidableEq

/-- The environment variables the three handlers read from `process.env`. -/
structure ProcessEnv where
  OPENAI_KEY : Option String
  OPENAI_ENDPOINT : Option String
  OPENAI_DEPLOYMENT : Option String
  AZURE_OPENAI_KEY : Option String
  AZURE_OPENAI_ENDPOINT : Option String
  AZURE_OPENAI_DEPLOYMENT : Option String
deriving DecidableEq

/-- The single outbound POST to the completion endpoint: target URL,
`api-key` header value, and JSON payload fields (`model` is absent from
the payload of the multipart variant). -/
structure CompletionCall where
  endpoint : Option String
  apiKey : Option String
  model : Option String
  prompt : String
  max_tokens : Nat
  temperature : Rat
deriving DecidableEq

/-- Response body shapes the handlers produce: a plain string (the 400 of
the JSON-body variants), a `translation` object, an `error` object, or the
`prompt` plus `translation` object of the multipart variant. -/
inductive ResBody where
  | text (s : String)
  | translation (t : String)
  | error (e : String)
  | promptTranslation (prompt t : String)
deriving DecidableEq

/-- The `context.res` value a handler assigns: HTTP status and body
(content-type headers are not modelled; no claim mentions them). -/
structure ContextRes where
  status : Nat
  body : ResBody
deriving DecidableEq

/-- One element of the upstream `choices` array, at the granularity the
handlers inspect: its `text` field. -/
structure Choice where
  text : String
deriving DecidableEq

/-- Upstream response body: either not parseable as JSON (`JSON.parse`
throws; the message of the thrown error accompanies the raw text), or
parsed JSON with an optional `choices` array. -/
inductive UpstreamBody where
  | notJson (raw : String) (parseErrMsg : String)
  | json (choices : Option (List Choice)) (raw : String)
deriving DecidableEq

/-- The raw body text, as accumulated into `data` by the handlers. -/
def UpstreamBody.raw : UpstreamBody → String
  | .notJson r _ => r
  | .json _ r => r

/-- Outcome of the single outbound call: a transport failure (the request
error event, or the axios rejection for a network failure) carrying its
error message, or an HTTP response with status code and body. -/
inductive UpstreamOutcome where
  | transportError (message : String)
  | response (statusCode : Nat) (body : UpstreamBody)
deriving DecidableEq

/-- Message of the TypeError thrown by indexing `[0]` on an undefined
`choices` value. -/
def typeErrorReading0 : String :=
  "Cannot read properties of undefined (reading \x270\x27)"

/-- Message of the TypeError thrown by reading `.text` on the undefined
element `choices[0]` of an empty array. -/
def typeErrorReadingText : String :=
  "Cannot read properties of undefined (reading \x27text\x27)"

/-- Whitespace as trimmed by JS `String.prototype.trim`: space-like
characters and line terminators (the space-separator category is
represented by the characters that occur in practice). -/
def jsWhitespace (c : Char) : Bool :=
  c == ' ' || c == '\t' || c == '\n' || c == '\r'
    || c.toNat == 11 || c.toNat == 12 || c.toNat == 0xA0
    || c.toNat == 0xFEFF || c.toNat == 0x2028 || c.toNat == 0x2029

/-- Model of JS `s.trim()`: strip whitespace from both ends. -/
def jsTrim (s : String) : String :=
  String.mk (((s.data.dropWhile jsWhitespace).reverse.dropWhile jsWhitespace).reverse)

/-- The local `textToTranslate` of the JSON-body handlers, as determined by
the if/else-if chain on `req.body.text` and `req.body.file`; `none` models
the early 400 return.  Both JSON-body variants share this logic: a truthy
`text` wins, otherwise a truthy `file` is base64-decoded, otherwise the
request is rejected. -/
def jsonTextToTranslate (body? : Option JsonBody) : Option String :=
  match body? with
  | some b =>
    if jsTruthy b.text then some (b.text.getD "")
    else if jsTruthy b.file then some (bufferBase64ToUtf8 (b.file.getD ""))
    else none
  | none => none

/-- Whether a JSON-body request passes validation: the body is present and
carries a truthy `text` or a truthy `file`. -/
def jsonBodyAccepted (body? : Option JsonBody) : Bool :=
  match body? with
  | some b => jsTruthy b.text || jsTruthy b.file
  | none => false

/-- Send phase of `src/unnamed/part_000`: validation and construction of
the outbound completion request.  The target language comes from
`req.query.lang || "en"`; the payload carries the deployment as `model`,
`max_tokens` 1000 and `temperature` 0. -/
def part000_send (req : Request) (env : ProcessEnv) : Sum ContextRes CompletionCall :=
  match jsonTextToTranslate req.body with
  | none => Sum.inl ⟨400, ResBody.text "Provide text or file in request body."⟩
  | some textToTranslate =>
    Sum.inr
      { endpoint := env.OPENAI_ENDPOINT
        apiKey := env.OPENAI_KEY
        model := env.OPENAI_DEPLOYMENT
        prompt := "Translate the following text to " ++ orDefault req.queryLang "en"
            ++ ":\n\n" ++ textToTranslate
        max_tokens := 1000
        temperature := 0 }

/-- Receive phase of `src/unnamed/part_000`: the body text is JSON.parsed
and `choices[0].text.trim()` is extracted inside the response promise; any
thrown error rejects the promise and the catch-all maps it to a 500 error
object.  There is no status-code check. -/
def part000_receive : UpstreamOutcome → ContextRes
  | .transportError msg => ⟨500, ResBody.error msg⟩
  | .response _ body =>
    match body with
    | .notJson _ parseErrMsg => ⟨500, ResBody.error parseErrMsg⟩
    | .json none _ => ⟨500, ResBody.error typeErrorReading0⟩
    | .json (some []) _ => ⟨500, ResBody.error typeErrorReadingText⟩
    | .json (some (c :: _)) _ => ⟨200, ResBody.translation (jsTrim c.text)⟩

/-- The handler of `src/unnamed/part_000`, as a function of the request,
the environment and the outcome of the single outbound call. -/
def part000_handler (req : Request) (env : ProcessEnv) (u : UpstreamOutcome) : ContextRes :=
  match part000_send req env with
  | Sum.inl res => res
  | Sum.inr _ => part000_receive u

/-- The local `targetLanguage` of `src/unnamed/part_001`: defaults to "en"
and is overridden by a truthy `req.body.lang`. -/
def part001_targetLang (body? : Option JsonBody) : String :=
  match body? with
  | some b => if jsTruthy b.lang then b.lang.getD "" else "en"
  | none => "en"

/-- Send phase of `src/unnamed/part_001`: same validation and decoding as
part_000; the target language comes from the body. -/
def part001_send (req : Request) (env : ProcessEnv) : Sum ContextRes CompletionCall :=
  match jsonTextToTranslate req.body with
  | none => Sum.inl ⟨400, ResBody.text "Provide text or file in request body."⟩
  | some textToTranslate =>
    Sum.inr
      { endpoint := env.OPENAI_ENDPOINT
        apiKey := env.OPENAI_KEY
        model := env.OPENAI_DEPLOYMENT
        prompt := "Translate the following text to " ++ part001_targetLang req.body
            ++ ":\n\n" ++ textToTranslate
        max_tokens := 1000
        temperature := 0 }

/-- Receive phase of `src/unnamed/part_001`: an explicit 2xx check; inside
it, a parse failure rejects with an "Invalid JSON response" message built
from the raw body, a missing or empty `choices` rejects with "No choices
returned from LLM.", and otherwise `choices[0].text.trim()` resolves; a
non-2xx status rejects with the upstream status and raw body. -/
def part001_receive : UpstreamOutcome → ContextRes
  | .transportError msg => ⟨500, ResBody.error msg⟩
  | .response code body =>
    if 200 ≤ code ∧ code < 300 then
      match body with
      | .notJson raw _ => ⟨500, ResBody.error ("Invalid JSON response: " ++ raw)⟩
      | .json (some (c :: _)) _ => ⟨200, ResBody.translation (jsTrim c.text)⟩
      | .json _ _ => ⟨500, ResBody.error "No choices returned from LLM."⟩
    else ⟨500, ResBody.error ("HTTP " ++ toString code ++ ": " ++ body.raw)⟩

/-- The handler of `src/unnamed/part_001` on the POST path. -/
def part001_handler (req : Request) (env : ProcessEnv) (u : UpstreamOutcome) : ContextRes :=
  match part001_send req env with
  | Sum.inl res => res
  | Sum.inr _ => part001_receive u

/-- The local `promptText` of `src/index.js`: the uploaded file content,
then the `text` field appended with a newline separator when `promptText`
is already non-empty. -/
def combinedPromptText (d : FormData) : String :=
  let fromFile := match d.fileContent with
    | some fc => fc
    | none => ""
  match d.text with
  | some t => fromFile ++ (if fromFile = "" then "" else "\n") ++ t
  | none => fromFile

/-- Send phase of the POST path of `src/index.js`: empty `promptText`
yields the 400 error object; otherwise the Azure endpoint URL is built by
template interpolation and the payload carries a fixed French prompt,
`max_tokens` 500 and `temperature` 0.7, with no `model` field. -/
def index_send (d : FormData) (env : ProcessEnv) : Sum ContextRes CompletionCall :=
  let promptText := combinedPromptText d
  if promptText = "" then
    Sum.inl ⟨400, ResBody.error "No file or text provided."⟩
  else
    Sum.inr
      { endpoint := some (envString env.AZURE_OPENAI_ENDPOINT ++ "openai/deployments/"
            ++ envString env.AZURE_OPENAI_DEPLOYMENT ++ "/completions?api-version=2023-07-01-preview")
        apiKey := env.AZURE_OPENAI_KEY
        model := none
        prompt := "Translate this text to French:\n" ++ promptText
        max_tokens := 500
        temperature := 7 / 10 }

/-- Receive phase of `src/index.js`: axios rejects a network failure with
its message and a non-2xx status with "Request failed with status code N";
on a 2xx response it hands over the parsed body (or the raw string when
not JSON, on which reading `.choices` gives undefined), and the handler
reads `response.data.choices[0].text` without trimming, echoing the
combined `promptText` alongside; any throw lands in the catch-all 500. -/
def index_receive (promptText : String) : UpstreamOutcome → ContextRes
  | .transportError msg => ⟨500, ResBody.error msg⟩
  | .response code body =>
    if 200 ≤ code ∧ code < 300 then
      match body with
      | .json (some (c :: _)) _ => ⟨200, ResBody.promptTranslation promptText c.text⟩
      | .json (some []) _ => ⟨500, ResBody.error typeErrorReadingText⟩
      | _ => ⟨500, ResBody.error typeErrorReading0⟩
    else ⟨500, ResBody.error ("Request failed with status code " ++ toString code)⟩

/-- The POST path of the handler of `src/index.js` (the GET branch serves a
static page and is out of scope of every claim). -/
def index_handler (d : FormData) (env : ProcessEnv) (u : UpstreamOutcome) : ContextRes :=
  match index_send d env with
  | Sum.inl res => res
  | Sum.inr _ => index_receive (combinedPromptText d) u

/-- The outbound completion call of a send-phase result, when one is made. -/
def sentCall : Sum ContextRes CompletionCall → Option CompletionCall
  | Sum.inl _ => none
  | Sum.inr c => some c

/-- A concrete environment used by the closed example theorems. -/
def exampleEnv : ProcessEnv :=
  { OPENAI_KEY := some "k"
    OPENAI_ENDPOINT := some "https://e/completions"
    OPENAI_DEPLOYMENT := some "d"
    AZURE_OPENAI_KEY := some "ak"
    AZURE_OPENAI_ENDPOINT := some "https://a/"
    AZURE_OPENAI_DEPLOYMENT := some "ad" }

theorem jsonTextToTranslate_none (body? : Option JsonBody) :
    jsonTextToTranslate body? = none ↔ jsonBodyAccepted body? = false := by
  cases body? with
  | none => simp [jsonTextToTranslate, jsonBodyAccepted]
  | some b =>
    by_cases ht : jsTruthy b.text <;> by_cases hf : jsTruthy b.file <;>
      simp [jsonTextToTranslate, jsonBodyAccepted, ht, hf]

theorem part000_send_isLeft (req : Request) (env : ProcessEnv) :
    (part000_send req env).isLeft = true ↔ jsonBodyAccepted req.body = false := by
  cases h : jsonTextToTranslate req.body with
  | none =>
    rw [← jsonTextToTranslate_none req.body]
    simp [part000_send, h]
  | some t =>
    constructor
    · intro hl
      simp [part000_send, h] at hl
    · intro ha
      rw [(jsonTextToTranslate_none req.body).mpr ha] at h
      cases h

theorem part001_send_isLeft (req : Request) (env : ProcessEnv) :
    (part001_send req env).isLeft = true ↔ jsonBodyAccepted req.body = false := by
  cases h : jsonTextToTranslate req.body with
  | none =>
    rw [← jsonTextToTranslate_none req.body]
    simp [part001_send, h]
  | some t =>
    constructor
    · intro hl
      simp [part001_send, h] at hl
    · intro ha
      rw [(jsonTextToTranslate_none req.body).mpr ha] at h
      cases h

theorem index_send_isLeft (d : FormData) (env : ProcessEnv) :
    (index_send d env).isLeft = true ↔ combinedPromptText d = "" := by
  by_cases h : combinedPromptText d = "" <;> simp [index_send, h]

theorem part000_handler_call (req : Request) (env : ProcessEnv) (u : UpstreamOutcome)
    (h : (part000_send req env).isRight = true) :
    part000_handler req env u = part000_receive u := by
  cases hs : part000_send req env with
  | inl r => rw [hs] at h; simp at h
  | inr c => simp [part000_handler, hs]

theorem part001_handler_call (req : Request) (env : ProcessEnv) (u : UpstreamOutcome)
    (h : (part001_send req env).isRight = true) :
    part001_handler req env u = part001_receive u := by
  cases hs : part001_send req env with
  | inl r => rw [hs] at h; simp at h
  | inr c => simp [part001_handler, hs]

theorem index_handler_call (d : FormData) (env : ProcessEnv) (u : UpstreamOutcome)
    (h : (index_send d env).isRight = true) :
    index_handler d env u = index_receive (combinedPromptText d) u := by
  cases hs : index_send d env with
  | inl r => rw [hs] at h; simp at h
  | inr c => simp [index_handler, hs]

theorem part000_receive_status (u : UpstreamOutcome) :
    (part000_receive u).status = 200 ∨ (part000_receive u).status = 500 := by
  rcases u with m | ⟨code, b⟩
  · exact Or.inr rfl
  · rcases b with ⟨raw, perr⟩ | ⟨choices, raw⟩
    · exact Or.inr rfl
    · rcases choices with _ | (_ | ⟨c, cs⟩)
      · exact Or.inr rfl
      · exact Or.inr rfl
      · exact Or.inl rfl

theorem part001_receive_status (u : UpstreamOutcome) :
    (part001_receive u).status = 200 ∨ (part001_receive u).status = 500 := by
  rcases u with m | ⟨code, b⟩
  · exact Or.inr rfl
  · by_cases h2 : 200 ≤ code ∧ code < 300
    · rcases b with ⟨raw, perr⟩ | ⟨choices, raw⟩
      · right; simp [part001_receive, h2]
      · rcases choices with _ | (_ | ⟨c, cs⟩)
        · right; simp [part001_receive, h2]
        · right; simp [part001_receive, h2]
        · left; simp [part001_receive, h2]
    · right; simp [part001_receive, h2]

/-- Claim C1, counterexample: in part_000, the request with body
text absent and file "A" has no non-empty inline text and a file whose
decoded content is empty ("A" is a lone base64 sextet, decoding to no
bytes), yet the handler does not respond 400: it makes the outbound call
and, with a successful upstream response, responds 200. -/
theorem C1_counterexample :
    bufferBase64ToUtf8 "A" = ""
    ∧ (part000_send ⟨some ⟨none, some "A", none⟩, none⟩ exampleEnv).isRight = true
    ∧ (part000_handler ⟨some ⟨none, some "A", none⟩, none⟩ exampleEnv
        (UpstreamOutcome.response 200 (UpstreamBody.json (some [⟨"T"⟩]) "raw"))).status = 200
    ∧ ¬ (part000_handler ⟨some ⟨none, some "A", none⟩, none⟩ exampleEnv
        (UpstreamOutcome.response 200 (UpstreamBody.json (some [⟨"T"⟩]) "raw"))).status = 400 := by
  exact ⟨rfl, rfl, rfl, by decide⟩

/-- Claim C1, amended: in the JSON-body variants the handler responds 400
(with the fixed message, and without making the outbound call) exactly when
the body lacks both a truthy text field and a truthy file field - a present
non-empty file whose decoded content is empty is accepted; in the multipart
variant the handler responds 400 exactly when the combined file-plus-text
content is the empty string. -/
theorem C1_amended :
    (∀ req env, (part000_send req env).isLeft = true ↔ jsonBodyAccepted req.body = false)
    ∧ (∀ req env, part000_send req env
        = Sum.inl ⟨400, ResBody.text "Provide text or file in request body."⟩
        ↔ jsonBodyAccepted req.body = false)
    ∧ (∀ req env, (part001_send req env).isLeft = true ↔ jsonBodyAccepted req.body = false)
    ∧ (∀ req env, part001_send req env
        = Sum.inl ⟨400, ResBody.text "Provide text or file in request body."⟩
        ↔ jsonBodyAccepted req.body = false)
    ∧ (∀ d env, (index_send d env).isLeft = true ↔ combinedPromptText d = "")
    ∧ (∀ d env, index_send d env = Sum.inl ⟨400, ResBody.error "No file or text provided."⟩
        ↔ combinedPromptText d = "") := by
  refine ⟨part000_send_isLeft, ?_, part001_send_isLeft, ?_, index_send_isLeft, ?_⟩
  · intro req env
    rw [← part000_send_isLeft req env]
    cases hs : part000_send req env with
    | inl r =>
      constructor
      · intro h; rw [h]; rfl
      · intro _
        have : (part000_send req env).isLeft = true := by rw [hs]; rfl
        have h4 := (part000_send_isLeft req env).mp this
        cases h : jsonTextToTranslate req.body with
        | none => rw [hs.symm]; simp [part000_send, h]
        | some t =>
          rw [(jsonTextToTranslate_none req.body).mpr h4] at h
          cases h
    | inr c => simp
  · intro req env
    rw [← part001_send_isLeft req env]
    cases hs : part001_send req env with
    | inl r =>
      constructor
      · intro h; rw [h]; rfl
      · intro _
        have : (part001_send req env).isLeft = true := by rw [hs]; rfl
        have h4 := (part001_send_isLeft req env).mp this
        cases h : jsonTextToTranslate req.body with
        | none => rw [hs.symm]; simp [part001_send, h]
        | some t =>
          rw [(jsonTextToTranslate_none req.body).mpr h4] at h
          cases h
    | inr c => simp
  · intro d env
    by_cases h : combinedPromptText d = "" <;> simp [index_send, h]

/-- Claim C2, counterexample: in part_000 a request carrying both a
non-empty text field and a valid base64 file ("eW8=", decoding to "yo")
sends a prompt built from the text alone; the decoded file content does
not occur in it. -/
theorem C2_counterexample :
    bufferBase64ToUtf8 "eW8=" = "yo"
    ∧ (sentCall (part000_send ⟨some ⟨some "hi", some "eW8=", none⟩, none⟩ exampleEnv)).map
        CompletionCall.prompt = some "Translate the following text to en:\n\nhi"
    ∧ ¬ ("yo".data <:+: "Translate the following text to en:\n\nhi".data) := by
  exact ⟨rfl, rfl, by decide⟩

/-- Claim C2, amended: in the JSON-body variants the decoded file content
reaches the prompt only when the text field is not truthy (truthy text
wins and the file is ignored; the two are never concatenated); in the
multipart variant the file content and the text field are concatenated,
file first, newline-joined. -/
theorem C2_amended (b : JsonBody) (q : Option String) (env : ProcessEnv)
    (fc t : String) (hfc : ¬ fc = "")
    (ht : jsTruthy b.text = false) (hf : jsTruthy b.file = true) :
    (sentCall (part000_send ⟨some b, q⟩ env)).map CompletionCall.prompt
      = some ("Translate the following text to " ++ orDefault q "en" ++ ":\n\n"
          ++ bufferBase64ToUtf8 (b.file.getD ""))
    ∧ (sentCall (part001_send ⟨some b, q⟩ env)).map CompletionCall.prompt
      = some ("Translate the following text to " ++ part001_targetLang (some b) ++ ":\n\n"
          ++ bufferBase64ToUtf8 (b.file.getD ""))
    ∧ (sentCall (index_send ⟨some fc, some t⟩ env)).map CompletionCall.prompt
      = some ("Translate this text to French:\n" ++ (fc ++ "\n" ++ t)) := by
  have hcomb : combinedPromptText ⟨some fc, some t⟩ = fc ++ "\n" ++ t := by
    simp [combinedPromptText, hfc]
  have hne : ¬ combinedPromptText ⟨some fc, some t⟩ = "" := by
    rw [hcomb]
    intro hab
    apply hfc
    have h0 : (fc ++ "\n" ++ t).data = [] := by rw [hab]
    rw [String.data_append, String.data_append] at h0
    rcases List.append_eq_nil.mp (List.append_eq_nil.mp h0).1 with ⟨h1, -⟩
    exact String.ext h1
  rw [hcomb] at hne
  refine ⟨?_, ?_, ?_⟩
  · simp [part000_send, jsonTextToTranslate, ht, hf, sentCall]
  · simp [part001_send, jsonTextToTranslate, ht, hf, sentCall]
  · simp [index_send, hcomb, hne, sentCall]

/-- Claim C3, counterexample: part_000 never checks the upstream status
code; a non-2xx upstream response whose body still parses with a usable
candidate yields 200, not 500. -/
theorem C3_counterexample :
    (part000_send ⟨some ⟨some "hi", none, none⟩, none⟩ exampleEnv).isRight = true
    ∧ part000_handler ⟨some ⟨some "hi", none, none⟩, none⟩ exampleEnv
        (UpstreamOutcome.response 404 (UpstreamBody.json (some [⟨"oops"⟩]) "raw"))
      = ⟨200, ResBody.translation "oops"⟩
    ∧ ¬ (part000_handler ⟨some ⟨some "hi", none, none⟩, none⟩ exampleEnv
        (UpstreamOutcome.response 404 (UpstreamBody.json (some [⟨"oops"⟩]) "raw"))).status
      = 500 := by
  exact ⟨rfl, by decide, by decide⟩

/-- Claim C3, amended: part_001 maps a non-2xx upstream status to 500 with
the message "HTTP {code}: {body}", and the multipart variant (through the
axios rejection) to 500 with "Request failed with status code {code}",
each containing the upstream status; part_000 ignores the status code
entirely, so its response depends only on the upstream body, and a non-2xx
response is surfaced as an error only through a parse or indexing
failure. -/
theorem C3_amended (req : Request) (d : FormData) (env : ProcessEnv) (code : Nat)
    (b : UpstreamBody) (hc : ¬ (200 ≤ code ∧ code < 300))
    (h001 : (part001_send req env).isRight = true)
    (hidx : (index_send d env).isRight = true) :
    part001_handler req env (UpstreamOutcome.response code b)
      = ⟨500, ResBody.error ("HTTP " ++ toString code ++ ": " ++ b.raw)⟩
    ∧ index_handler d env (UpstreamOutcome.response code b)
      = ⟨500, ResBody.error ("Request failed with status code " ++ toString code)⟩
    ∧ (∀ c1 c2 : Nat, ∀ b2 : UpstreamBody,
        part000_receive (UpstreamOutcome.response c1 b2)
          = part000_receive (UpstreamOutcome.response c2 b2)) := by
  refine ⟨?_, ?_, ?_⟩
  · rw [part001_handler_call req env _ h001]
    simp [part001_receive, hc]
  · rw [index_handler_call d env _ hidx]
    simp [index_receive, hc]
  · intro c1 c2 b2
    rcases b2 with ⟨raw, perr⟩ | ⟨choices, raw⟩
    · rfl
    · rcases choices with _ | (_ | ⟨c, cs⟩) <;> rfl

/-- Claim C4, counterexample: the multipart variant returns the first
candidate text without trimming; the upstream candidate " Bonjour "
yields the translation " Bonjour ", not "Bonjour". -/
theorem C4_counterexample :
    index_handler ⟨none, some "hello"⟩ exampleEnv
        (UpstreamOutcome.response 200 (UpstreamBody.json (some [⟨" Bonjour "⟩]) "raw"))
      = ⟨200, ResBody.promptTranslation "hello" " Bonjour "⟩
    ∧ jsTrim " Bonjour " = "Bonjour"
    ∧ ¬ (" Bonjour " = "Bonjour") := by
  exact ⟨rfl, by decide, by decide⟩

/-- Claim C4, amended: on a successful upstream response with a non-empty
candidate list, the two JSON-body variants return 200 with the first
candidate text trimmed of surrounding whitespace, while the multipart
variant returns 200 with the first candidate text unmodified (echoing the
combined input alongside). -/
theorem C4_amended (code : Nat) (h2 : 200 ≤ code ∧ code < 300) (c : Choice)
    (rest : List Choice) (raw pt : String) :
    part000_receive (UpstreamOutcome.response code (UpstreamBody.json (some (c :: rest)) raw))
      = ⟨200, ResBody.translation (jsTrim c.text)⟩
    ∧ part001_receive (UpstreamOutcome.response code (UpstreamBody.json (some (c :: rest)) raw))
      = ⟨200, ResBody.translation (jsTrim c.text)⟩
    ∧ index_receive pt (UpstreamOutcome.response code (UpstreamBody.json (some (c :: rest)) raw))
      = ⟨200, ResBody.promptTranslation pt c.text⟩ := by
  refine ⟨rfl, ?_, ?_⟩
  · simp [part001_receive, h2]
  · simp [index_receive, h2]

/-- Claim C5, counterexample: the multipart variant builds the prompt
"Translate this text to French:\n{promptText}" (single newline, different
wording), which does not match the claimed template under any resolution
of the target language. -/
theorem C5_counterexample :
    (sentCall (index_send ⟨none, some "hello"⟩ exampleEnv)).map CompletionCall.prompt
      = some "Translate this text to French:\nhello"
    ∧ ¬ ("Translate the following text to ".data
          <+: "Translate this text to French:\nhello".data)
    ∧ ¬ ("Translate this text to French:\nhello"
          = "Translate the following text to French:\n\nhello") := by
  exact ⟨rfl, by decide, by decide⟩

/-- Claim C5, amended: for every accepted request the JSON-body variants
send exactly the prompt "Translate the following text to
{targetLanguage}:\n\n{textToTranslate}", with the target language resolved
from the query (part_000) or the body (part_001) and defaulting to "en";
the multipart variant instead sends "Translate this text to
French:\n{promptText}" with a fixed language and a single newline. -/
theorem C5_amended (req : Request) (d : FormData) (env : ProcessEnv)
    (hacc : jsonBodyAccepted req.body = true) (hp : ¬ combinedPromptText d = "") :
    (sentCall (part000_send req env)).map CompletionCall.prompt
      = some ("Translate the following text to " ++ orDefault req.queryLang "en"
          ++ ":\n\n" ++ (jsonTextToTranslate req.body).getD "")
    ∧ (sentCall (part001_send req env)).map CompletionCall.prompt
      = some ("Translate the following text to " ++ part001_targetLang req.body
          ++ ":\n\n" ++ (jsonTextToTranslate req.body).getD "")
    ∧ (sentCall (index_send d env)).map CompletionCall.prompt
      = some ("Translate this text to French:\n" ++ combinedPromptText d) := by
  cases h : jsonTextToTranslate req.body with
  | none =>
    rw [(jsonTextToTranslate_none req.body).mp h] at hacc
    cases hacc
  | some t =>
    refine ⟨?_, ?_, ?_⟩
    · simp [part000_send, h, sentCall]
    · simp [part001_send, h, sentCall]
    · simp [index_send, hp, sentCall]

/-- Claim C6, counterexample: "!!!" is not valid base64, yet the handler
does not respond 400: Node decoding is lenient (here it yields the empty
string), the outbound call is made, and with a successful upstream
response the handler responds 200. -/
theorem C6_counterexample :
    validBase64 "!!!" = false
    ∧ bufferBase64ToUtf8 "!!!" = ""
    ∧ part000_handler ⟨some ⟨none, some "!!!", none⟩, none⟩ exampleEnv
        (UpstreamOutcome.response 200 (UpstreamBody.json (some [⟨" ok "⟩]) "raw"))
      = ⟨200, ResBody.translation "ok"⟩
    ∧ ¬ (part000_handler ⟨some ⟨none, some "!!!", none⟩, none⟩ exampleEnv
        (UpstreamOutcome.response 200 (UpstreamBody.json (some [⟨" ok "⟩]) "raw"))).status
      = 400 := by
  exact ⟨rfl, rfl, by decide, by decide⟩

/-- Claim C6, amended: the base64 decode never fails, so a malformed file
field never yields a 400 from the decode: whenever the text field is not
truthy and the file field is any non-empty string (valid base64 or not),
both JSON-body handlers proceed to the outbound call and the response is
determined solely by the upstream outcome, whose status is always 200 or
500 and never 400. -/
theorem C6_amended (f : String) (hf : ¬ f = "") (lang q : Option String)
    (env : ProcessEnv) (u : UpstreamOutcome) :
    (part000_send ⟨some ⟨none, some f, lang⟩, q⟩ env).isRight = true
    ∧ part000_handler ⟨some ⟨none, some f, lang⟩, q⟩ env u = part000_receive u
    ∧ ¬ (part000_handler ⟨some ⟨none, some f, lang⟩, q⟩ env u).status = 400
    ∧ (part001_send ⟨some ⟨none, some f, lang⟩, q⟩ env).isRight = true
    ∧ part001_handler ⟨some ⟨none, some f, lang⟩, q⟩ env u = part001_receive u
    ∧ ¬ (part001_handler ⟨some ⟨none, some f, lang⟩, q⟩ env u).status = 400 := by
  have hft : jsTruthy (some f) = true := by simp [jsTruthy, hf]
  have h0 : (part000_send ⟨some ⟨none, some f, lang⟩, q⟩ env).isRight = true := by
    simp [part000_send, jsonTextToTranslate, jsTruthy, hft, hf]
  have h1 : (part001_send ⟨some ⟨none, some f, lang⟩, q⟩ env).isRight = true := by
    simp [part001_send, jsonTextToTranslate, jsTruthy, hft, hf]
  have e0 := part000_handler_call ⟨some ⟨none, some f, lang⟩, q⟩ env u h0
  have e1 := part001_handler_call ⟨some ⟨none, some f, lang⟩, q⟩ env u h1
  refine ⟨h0, e0, ?_, h1, e1, ?_⟩
  · rw [e0]
    rcases part000_receive_status u with h | h <;> omega
  · rw [e1]
    rcases part001_receive_status u with h | h <;> omega

/-- Claim C7: for every request that makes the outbound call, a transport
failure, an unparseable upstream body, or a parsed body lacking a usable
candidate list (absent or empty choices) is mapped by all three handlers
to HTTP 500 with an error-object body carrying the failure message. -/
theorem C7_confirmed (req : Request) (d : FormData) (env : ProcessEnv)
    (code : Nat) (raw perr msg : String)
    (h000 : (part000_send req env).isRight = true)
    (h001 : (part001_send req env).isRight = true)
    (hidx : (index_send d env).isRight = true)
    (h2 : 200 ≤ code ∧ code < 300) :
    part000_handler req env (UpstreamOutcome.transportError msg) = ⟨500, ResBody.error msg⟩
    ∧ part000_handler req env (UpstreamOutcome.response code (UpstreamBody.notJson raw perr))
        = ⟨500, ResBody.error perr⟩
    ∧ part000_handler req env (UpstreamOutcome.response code (UpstreamBody.json none raw))
        = ⟨500, ResBody.error typeErrorReading0⟩
    ∧ part000_handler req env (UpstreamOutcome.response code (UpstreamBody.json (some []) raw))
        = ⟨500, ResBody.error typeErrorReadingText⟩
    ∧ part001_handler req env (UpstreamOutcome.transportError msg) = ⟨500, ResBody.error msg⟩
    ∧ part001_handler req env (UpstreamOutcome.response code (UpstreamBody.notJson raw perr))
        = ⟨500, ResBody.error ("Invalid JSON response: " ++ raw)⟩
    ∧ part001_handler req env (UpstreamOutcome.response code (UpstreamBody.json none raw))
        = ⟨500, ResBody.error "No choices returned from LLM."⟩
    ∧ part001_handler req env (UpstreamOutcome.response code (UpstreamBody.json (some []) raw))
        = ⟨500, ResBody.error "No choices returned from LLM."⟩
    ∧ index_handler d env (UpstreamOutcome.transportError msg) = ⟨500, ResBody.error msg⟩
    ∧ index_handler d env (UpstreamOutcome.response code (UpstreamBody.notJson raw perr))
        = ⟨500, ResBody.error typeErrorReading0⟩
    ∧ index_handler d env (UpstreamOutcome.response code (UpstreamBody.json none raw))
        = ⟨500, ResBody.error typeErrorReading0⟩
    ∧ index_handler d env (UpstreamOutcome.response code (UpstreamBody.json (some []) raw))
        = ⟨500, ResBody.error typeErrorReadingText⟩ := by
  have b0 := fun u => part000_handler_call req env u h000
  have b1 := fun u => part001_handler_call req env u h001
  have bi := fun u => index_handler_call d env u hidx
  simp only [b0, b1, bi]
  refine ⟨rfl, rfl, rfl, rfl, rfl, ?_, ?_, ?_, rfl, ?_, ?_, ?_⟩ <;>
    simp [part001_receive, index_receive, h2]

/-- Claim C7, witness at a concrete accepted request and transport
failure. -/
theorem C7_confirmed_witness :
    part000_handler ⟨some ⟨some "hi", none, none⟩, none⟩ exampleEnv
        (UpstreamOutcome.transportError "getaddrinfo ENOTFOUND")
      = ⟨500, ResBody.error "getaddrinfo ENOTFOUND"⟩ :=
  (C7_confirmed ⟨some ⟨some "hi", none, none⟩, none⟩ ⟨none, some "hello"⟩ exampleEnv
    200 "raw" "perr" "getaddrinfo ENOTFOUND"
    (by decide) (by decide) (by decide) (by decide)).1

/-- Claim C8: each handler is a pure function of the request, the
environment and the upstream outcome, so two invocations with identical
inputs produce identical responses; no other state enters the mapping. -/
theorem C8_confirmed (r1 r2 : Request) (d1 d2 : FormData) (e1 e2 : ProcessEnv)
    (u1 u2 : UpstreamOutcome) (hr : r1 = r2) (hd : d1 = d2) (he : e1 = e2)
    (hu : u1 = u2) :
    part000_handler r1 e1 u1 = part000_handler r2 e2 u2
    ∧ part001_handler r1 e1 u1 = part001_handler r2 e2 u2
    ∧ index_handler d1 e1 u1 = index_handler d2 e2 u2 := by
  subst hr
  subst hd
  subst he
  subst hu
  exact ⟨rfl, rfl, rfl⟩

/-- Claim C8, witness at concrete identical invocations. -/
theorem C8_confirmed_witness :
    part000_handler ⟨some ⟨some "hi", none, none⟩, none⟩ exampleEnv
        (UpstreamOutcome.response 200 (UpstreamBody.json (some [⟨"T"⟩]) "raw"))
      = part000_handler ⟨some ⟨some "hi", none, none⟩, none⟩ exampleEnv
        (UpstreamOutcome.response 200 (UpstreamBody.json (some [⟨"T"⟩]) "raw")) :=
  (C8_confirmed ⟨some ⟨some "hi", none, none⟩, none⟩ ⟨some ⟨some "hi", none, none⟩, none⟩
    ⟨none, some "x"⟩ ⟨none, some "x"⟩ exampleEnv exampleEnv
    (UpstreamOutcome.response 200 (UpstreamBody.json (some [⟨"T"⟩]) "raw"))
    (UpstreamOutcome.response 200 (UpstreamBody.json (some [⟨"T"⟩]) "raw"))
    rfl rfl rfl rfl).1

/-- Claim C9: in the JSON-body variants, when the text field is non-empty
the file field is ignored entirely: the outbound call and the final
response are the same for any two values of the file field. -/
theorem C9_confirmed (t : String) (ht : ¬ t = "") (f1 f2 lang q : Option String)
    (env : ProcessEnv) (u : UpstreamOutcome) :
    sentCall (part000_send ⟨some ⟨some t, f1, lang⟩, q⟩ env)
      = sentCall (part000_send ⟨some ⟨some t, f2, lang⟩, q⟩ env)
    ∧ part000_handler ⟨some ⟨some t, f1, lang⟩, q⟩ env u
      = part000_handler ⟨some ⟨some t, f2, lang⟩, q⟩ env u
    ∧ sentCall (part001_send ⟨some ⟨some t, f1, lang⟩, q⟩ env)
      = sentCall (part001_send ⟨some ⟨some t, f2, lang⟩, q⟩ env)
    ∧ part001_handler ⟨some ⟨some t, f1, lang⟩, q⟩ env u
      = part001_handler ⟨some ⟨some t, f2, lang⟩, q⟩ env u := by
  have htt : jsTruthy (some t) = true := by simp [jsTruthy, ht]
  refine ⟨?_, ?_, ?_, ?_⟩ <;>
    simp [part000_send, part001_send, part000_handler, part001_handler,
      jsonTextToTranslate, part001_targetLang, htt]

/-- Claim C9, witness: with text "hi", file "eW8=" and file absent give the
same response. -/
theorem C9_confirmed_witness :
    sentCall (part000_send ⟨some ⟨some "hi", some "eW8=", none⟩, none⟩ exampleEnv)
      = sentCall (part000_send ⟨some ⟨some "hi", none, none⟩, none⟩ exampleEnv) :=
  (C9_confirmed "hi" (by decide) (some "eW8=") none none none exampleEnv
    (UpstreamOutcome.transportError "m")).1

/-- Claim C10: in the JSON-body variants, a request with no text field and
a non-empty file field whose base64 decoding is empty is not rejected: the
outbound call is made and its prompt ends with the empty input text. -/
theorem C10_confirmed (f : String) (hf : ¬ f = "") (hd : bufferBase64ToUtf8 f = "")
    (lang q : Option String) (env : ProcessEnv) :
    (part000_send ⟨some ⟨none, some f, lang⟩, q⟩ env).isRight = true
    ∧ (sentCall (part000_send ⟨some ⟨none, some f, lang⟩, q⟩ env)).map CompletionCall.prompt
      = some ("Translate the following text to " ++ orDefault q "en" ++ ":\n\n")
    ∧ (part001_send ⟨some ⟨none, some f, lang⟩, q⟩ env).isRight = true
    ∧ (sentCall (part001_send ⟨some ⟨none, some f, lang⟩, q⟩ env)).map CompletionCall.prompt
      = some ("Translate the following text to "
          ++ part001_targetLang (some ⟨none, some f, lang⟩) ++ ":\n\n") := by
  have hft : jsTruthy (some f) = true := by simp [jsTruthy, hf]
  have hjt : jsonTextToTranslate (some ⟨none, some f, lang⟩) = some "" := by
    simp [jsonTextToTranslate, jsTruthy, hf, hd]
  refine ⟨?_, ?_, ?_, ?_⟩
  · simp [part000_send, hjt]
  · simp [part000_send, hjt, sentCall, String.append_empty]
  · simp [part001_send, hjt]
  · simp [part001_send, hjt, sentCall, String.append_empty]

/-- Claim C10, witness at the file "A", a lone sextet decoding to the
empty string. -/
theorem C10_confirmed_witness :
    (sentCall (part000_send ⟨some ⟨none, some "A", none⟩, none⟩ exampleEnv)).map
        CompletionCall.prompt
      = some ("Translate the following text to " ++ orDefault none "en" ++ ":\n\n") :=
  (C10_confirmed "A" (by decide) (by decide) none none exampleEnv).2.1

/-- Claim C2 (amended), witness: with no text and file "eW8=" the decoded
content reaches the prompt of part_000. -/
theorem C2_amended_witness :
    (sentCall (part000_send ⟨some ⟨none, some "eW8=", none⟩, none⟩ exampleEnv)).map
        CompletionCall.prompt
      = some ("Translate the following text to " ++ orDefault none "en" ++ ":\n\n"
          ++ bufferBase64ToUtf8 ((⟨none, some "eW8=", none⟩ : JsonBody).file.getD "")) :=
  (C2_amended ⟨none, some "eW8=", none⟩ none exampleEnv "F" "T"
    (by decide) (by decide) (by decide)).1

/-- Claim C3 (amended), witness: upstream status 404 with body "boom" in
part_001. -/
theorem C3_amended_witness :
    part001_handler ⟨some ⟨some "hi", none, none⟩, none⟩ exampleEnv
        (UpstreamOutcome.response 404 (UpstreamBody.notJson "boom" "perr"))
      = ⟨500, ResBody.error ("HTTP " ++ toString 404 ++ ": "
          ++ (UpstreamBody.notJson "boom" "perr").raw)⟩ :=
  (C3_amended ⟨some ⟨some "hi", none, none⟩, none⟩ ⟨none, some "hello"⟩ exampleEnv
    404 (UpstreamBody.notJson "boom" "perr") (by decide) (by decide) (by decide)).1

/-- Claim C4 (amended), witness: candidate " Bonjour " at upstream status
200 in part_000. -/
theorem C4_amended_witness :
    part000_receive (UpstreamOutcome.response 200
        (UpstreamBody.json (some [⟨" Bonjour "⟩]) "raw"))
      = ⟨200, ResBody.translation (jsTrim " Bonjour ")⟩ :=
  (C4_amended 200 (by decide) ⟨" Bonjour "⟩ [] "raw" "hello").1

/-- Claim C5 (amended), witness: the accepted request with text "hi" in
part_000. -/
theorem C5_amended_witness :
    (sentCall (part000_send ⟨some ⟨some "hi", none, none⟩, none⟩ exampleEnv)).map
        CompletionCall.prompt
      = some ("Translate the following text to " ++ orDefault none "en" ++ ":\n\n"
          ++ (jsonTextToTranslate (some ⟨some "hi", none, none⟩)).getD "") :=
  (C5_amended ⟨some ⟨some "hi", none, none⟩, none⟩ ⟨none, some "hello"⟩ exampleEnv
    (by decide) (by decide)).1

/-- Claim C6 (amended), witness: the invalid base64 file "!!!" still
reaches the outbound call in part_000. -/
theorem C6_amended_witness :
    (part000_send ⟨some ⟨none, some "!!!", none⟩, none⟩ exampleEnv).isRight = true :=
  (C6_amended "!!!" (by decide) none none exampleEnv
    (UpstreamOutcome.transportError "m")).1
